import Mathlib

/-!
Verification development for the WordPress MCP server repository.

The JavaScript source is shallowly embedded: JS objects become association
lists of string keys and primitive values, thrown exceptions become the
`Except.error` constructor, and the asynchronous handlers become pure
functions from an explicit call context (arguments, site configuration,
and the outcome of the backend HTTP round trip) to the tool-result
envelope.  File persistence (`saveConfig`) only rewrites the already
up-to-date in-memory configuration, so it is embedded as the identity on
the configuration state.
-/

namespace WpMcp

/-- A primitive JavaScript value as it occurs in the site records and tool
arguments of this code base (`undef` is JavaScript `undefined`, the value
of an absent property). -/
inductive JVal where
  | str : String → JVal
  | num : Int → JVal
  | bool : Bool → JVal
  | null : JVal
  | undef : JVal
deriving Repr, DecidableEq

/-- A flat JavaScript object: association list of property names to
primitive values, first occurrence wins (our constructions never create
duplicate keys). -/
abbrev JObj := List (String × JVal)

/-- Property read `o[k]`, `none` when the key is absent. -/
def objGet (o : JObj) (k : String) : Option JVal :=
  (o.find? (fun p => p.1 == k)).map (fun p => p.2)

/-- JavaScript property access returns `undefined` for an absent key. -/
def vOf (o : Option JVal) : JVal := o.getD JVal.undef

/-- JavaScript truthiness of a primitive value. -/
def truthy : JVal → Bool
  | JVal.str s => s ≠ ""
  | JVal.num n => n ≠ 0
  | JVal.bool b => b
  | JVal.null => false
  | JVal.undef => false

/-- Whether the object has the key. -/
def objHas (o : JObj) (k : String) : Bool := o.any (fun p => p.1 == k)

/-- Rest-destructuring `const {k, ...rest} = o`: every property except `k`,
in order. -/
def objRemove (o : JObj) (k : String) : JObj := o.filter (fun p => p.1 != k)

/-- Spread merge `{...a, ...b}`: `a`'s keys in order with `b`'s values
overriding, then `b`'s new keys in `b`'s order. -/
def objMerge (a b : JObj) : JObj :=
  a.map (fun p => match objGet b p.1 with
    | some v => (p.1, v)
    | none => p) ++ b.filter (fun q => !objHas a q.1)

/-- `{...o, k: v}`. -/
def objSet (o : JObj) (k : String) (v : JVal) : JObj := objMerge o [(k, v)]

/-- The property names of an object, in order. -/
def objKeys (o : JObj) : List String := o.map (fun p => p.1)

/-- JavaScript template-literal stringification of a primitive value. -/
def jvalToString : JVal → String
  | JVal.str s => s
  | JVal.num n => toString n
  | JVal.bool b => cond b "true" "false"
  | JVal.null => "null"
  | JVal.undef => "undefined"

/-- The persisted configuration owned by `SiteStorage` (`config.sites` and
`config.activeSiteId`; the unrelated `server` block is not modelled). -/
structure SiteConfig where
  sites : List JObj
  activeSiteId : Option String
deriving Repr, DecidableEq

/-- `SiteStorage.getSiteById`: first site whose `id` strictly equals the
given string (`site.id === id`). -/
def getSiteById (sites : List JObj) (id : String) : Option JObj :=
  sites.find? (fun s => objGet s "id" == some (JVal.str id))

/-- `getSiteById` generalized to an arbitrary JavaScript value for the
strict comparison, as handlers pass `args.id` through unconverted. -/
def getSiteByIdV (sites : List JObj) (idv : JVal) : Option JObj :=
  sites.find? (fun s => objGet s "id" == some idv)

/-- `SiteStorage.getSiteByName`: first site whose `name` strictly equals
the given value (`site.name === name`). -/
def getSiteByNameV (sites : List JObj) (namev : JVal) : Option JObj :=
  sites.find? (fun s => objGet s "name" == some namev)

/-- `url.replace(/\/$/, '')`: drop a single trailing slash if present
(structural implementation over the character list, so that the kernel
can evaluate it). -/
def stripSlash (u : String) : String :=
  match u.data.reverse with
  | '/' :: rest => String.mk rest.reverse
  | _ => u

/-- `SiteStorage.getSiteByUrl`: first site whose `url`, after dropping one
trailing slash, equals the query url treated the same way.  Stored urls
are always strings in records this code creates; a non-string stored url
would throw in JavaScript and can never match here. -/
def getSiteByUrl (sites : List JObj) (url : String) : Option JObj :=
  sites.find? (fun s => match objGet s "url" with
    | some (JVal.str u) => stripSlash u == stripSlash url
    | _ => false)

/-- Message of the JavaScript `TypeError` raised by
`getSiteByUrl` when its argument has no `replace` method. -/
def typeErrUrlReplace : String := "url.replace is not a function"

/-- `SiteStorage.addSite`.  `freshId` stands for the `uuidv4()` draw and
`now` for `new Date().toISOString()`; both are inputs of the embedding.
`Except.error` is a thrown `Error` carrying the message. -/
def addSite (cfg : SiteConfig) (site : JObj) (freshId now : String) :
    Except String (JObj × SiteConfig) :=
  let namev := vOf (objGet site "name")
  let urlv := vOf (objGet site "url")
  if ¬ truthy namev then
    Except.error "[SiteStorage] Missing required field: name"
  else if ¬ truthy urlv then
    Except.error "[SiteStorage] Missing required field: url"
  else if (getSiteByNameV cfg.sites namev).isSome then
    Except.error ("[SiteStorage] A site with the name \"" ++
      jvalToString namev ++ "\" already exists")
  else
    match urlv with
    | JVal.str u =>
      if (getSiteByUrl cfg.sites u).isSome then
        Except.error ("[SiteStorage] A site with the URL \"" ++ u ++
          "\" already exists")
      else
        let idv := vOf (objGet site "id")
        let id := if truthy idv then idv else JVal.str freshId
        let newSite : JObj :=
          [("id", id), ("name", namev), ("url", JVal.str u),
           ("username", vOf (objGet site "username")),
           ("applicationPassword", vOf (objGet site "applicationPassword")),
           ("createdAt", JVal.str now), ("updatedAt", JVal.str now)]
        Except.ok (newSite, ⟨cfg.sites ++ [newSite], cfg.activeSiteId⟩)
    | _ => Except.error typeErrUrlReplace

/-- Replace the first element satisfying the predicate (the
`sites[findIndex(...)] = updatedSite` assignment of the source). -/
def replaceFirst (sites : List JObj) (p : JObj → Bool) (x : JObj) : List JObj :=
  match sites with
  | [] => []
  | s :: rest => if p s then x :: rest else s :: replaceFirst rest p x

/-- `SiteStorage.updateSite`.  The source locates the record with
`findIndex` and writes back at that index; the embedding locates it with
`find?` and `replaceFirst`, which is the same first-match semantics. -/
def updateSite (cfg : SiteConfig) (id : String) (updates : JObj)
    (now : String) : Except String (JObj × SiteConfig) :=
  match cfg.sites.find? (fun s => objGet s "id" == some (JVal.str id)) with
  | none => Except.error ("[SiteStorage] Site not found: " ++ id)
  | some cur =>
    let nv := vOf (objGet updates "name")
    if truthy nv ∧ nv ≠ vOf (objGet cur "name") ∧
        (getSiteByNameV cfg.sites nv).isSome then
      Except.error ("[SiteStorage] A site with the name \"" ++
        jvalToString nv ++ "\" already exists")
    else
      let uv := vOf (objGet updates "url")
      let updatedSite := objSet (objMerge cur updates) "updatedAt" (JVal.str now)
      let proceed : Except String (JObj × SiteConfig) :=
        Except.ok (updatedSite,
          ⟨replaceFirst cfg.sites
            (fun s => objGet s "id" == some (JVal.str id)) updatedSite,
           cfg.activeSiteId⟩)
      if truthy uv ∧ uv ≠ vOf (objGet cur "url") then
        match uv with
        | JVal.str u =>
          if (getSiteByUrl cfg.sites u).isSome then
            Except.error ("[SiteStorage] A site with the URL \"" ++ u ++
              "\" already exists")
          else proceed
        | _ => Except.error typeErrUrlReplace
      else proceed

/-- Remove the first element satisfying the predicate, `none` when no
element matches (the `findIndex` / `splice` pair of the source). -/
def removeFirst (sites : List JObj) (p : JObj → Bool) : Option (List JObj) :=
  match sites with
  | [] => none
  | s :: rest =>
    if p s then some rest
    else (removeFirst rest p).map (fun l => s :: l)

/-- `SiteStorage.removeSite`: returns the found/not-found flag and the new
state. -/
def removeSite (cfg : SiteConfig) (id : String) : Bool × SiteConfig :=
  match removeFirst cfg.sites (fun s => objGet s "id" == some (JVal.str id)) with
  | none => (false, cfg)
  | some sites => (true, ⟨sites, cfg.activeSiteId⟩)

/-- `SiteStorage.setActiveSite`. -/
def setActiveSite (cfg : SiteConfig) (id : String) :
    Except String (JObj × SiteConfig) :=
  match getSiteById cfg.sites id with
  | none => Except.error ("[SiteStorage] Site not found: " ++ id)
  | some site => Except.ok (site, ⟨cfg.sites, some id⟩)

/-- `SiteStorage.getActiveSite`: `null` when the pointer is unset (or the
empty string, which is falsy) or stale. -/
def getActiveSite (cfg : SiteConfig) : Option JObj :=
  match cfg.activeSiteId with
  | none => none
  | some id => if id = "" then none else getSiteById cfg.sites id

/-- The JSON document every handler encodes into the `text` field of its
response.  `status`, `message`, and the site-record fields are modelled
precisely; the remaining domain fields (posts, products, counts, …) are
abstracted into `extra`. -/
structure Payload where
  status : String
  message : Option String
  site : Option JObj
  sites : Option (List JObj)
  extra : List (String × JVal)
deriving Repr, DecidableEq

/-- One element of the `content` array of a tool result. -/
structure ContentItem where
  type : String
  text : Payload
deriving Repr, DecidableEq

/-- The tool result envelope `{ content: [...], isError?: boolean }`; an
absent `isError` is modelled as `false`. -/
structure ToolResult where
  content : List ContentItem
  isError : Bool
deriving Repr, DecidableEq

/-- A success envelope: single text item, no `isError` flag. -/
def okEnv (p : Payload) : ToolResult := ⟨[⟨"text", p⟩], false⟩

/-- The error envelope every `catch` block in the source produces:
`{status:"error", message}` with `isError:true`. -/
def errorEnvelope (m : String) : ToolResult :=
  ⟨[⟨"text", ⟨"error", some m, none, none, []⟩⟩], true⟩

/-- Inputs of one tool invocation: the argument bag, the current site
configuration, the outcome of the backend HTTP round trip the handler
would perform (`Except.error` = the call threw / the promise rejected),
the outcome of the credential-validation round trip, and the
uuid/timestamp draws. -/
structure CallCtx where
  args : JObj
  cfg : SiteConfig
  backend : Except String JVal
  validation : Except String Unit
  freshId : String
  now : String

/-- The body of a handler's `try` block: either a returned envelope or a
thrown error message. -/
abbrev TryBody := CallCtx → Except String ToolResult

/-- The `try { body } catch (error) { return errorEnvelope }` wrapper
every registered handler in the source shares. -/
def wrapTry (body : TryBody) (ctx : CallCtx) : ToolResult :=
  match body ctx with
  | Except.ok r => r
  | Except.error m => errorEnvelope m

/-- `filterCredentials` from the site-tools module: rest-destructuring
removes `applicationPassword` unless `includeCredentials` is truthy. -/
def filterCredentials (site : JObj) (includeCredentials : JVal) : JObj :=
  if truthy includeCredentials then site
  else objRemove site "applicationPassword"

/-- `SiteManager.addSite`: optional credential validation (skipped when
`validate` is literally `false` or either credential is falsy), then the
storage-level add. -/
def managerAddSite (cfg : SiteConfig) (site : JObj)
    (validation : Except String Unit) (freshId now : String) :
    Except String (JObj × SiteConfig) :=
  if vOf (objGet site "validate") ≠ JVal.bool false ∧
      truthy (vOf (objGet site "username")) ∧
      truthy (vOf (objGet site "applicationPassword")) then
    match validation with
    | Except.error m =>
      Except.error ("[SiteManager] Failed to validate site credentials: " ++ m)
    | Except.ok _ => addSite cfg site freshId now
  else addSite cfg site freshId now

/-- `SiteManager.updateSite`: existence check, optional credential
validation with fallbacks to the current record, strip the `validate`
flag, then the storage-level update. -/
def managerUpdateSite (cfg : SiteConfig) (id : String) (updates : JObj)
    (validation : Except String Unit) (now : String) :
    Except String (JObj × SiteConfig) :=
  match getSiteById cfg.sites id with
  | none => Except.error ("[SiteManager] Site not found: " ++ id)
  | some currentSite =>
    let username := if truthy (vOf (objGet updates "username")) then
        vOf (objGet updates "username") else vOf (objGet currentSite "username")
    let appPw := if truthy (vOf (objGet updates "applicationPassword")) then
        vOf (objGet updates "applicationPassword")
      else vOf (objGet currentSite "applicationPassword")
    if vOf (objGet updates "validate") ≠ JVal.bool false ∧
        truthy username ∧ truthy appPw then
      match validation with
      | Except.error m =>
        Except.error ("[SiteManager] Failed to validate site credentials: " ++ m)
      | Except.ok _ => updateSite cfg id (objRemove updates "validate") now
    else updateSite cfg id (objRemove updates "validate") now

/-- The `includeCredentials` argument of a call. -/
def incArg (ctx : CallCtx) : JVal := vOf (objGet ctx.args "includeCredentials")

/-- `add_site` handler body. -/
def addSiteBody : TryBody := fun ctx =>
  match managerAddSite ctx.cfg ctx.args ctx.validation ctx.freshId ctx.now with
  | Except.error m => Except.error m
  | Except.ok (site, _) => Except.ok (okEnv ⟨"success",
      some ("Site \"" ++ jvalToString (vOf (objGet ctx.args "name")) ++
        "\" added successfully"),
      some (filterCredentials site (incArg ctx)), none, []⟩)

/-- `list_sites` handler body. -/
def listSitesBody : TryBody := fun ctx =>
  let sites := ctx.cfg.sites.map (fun s => filterCredentials s (incArg ctx))
  Except.ok (okEnv ⟨"success", none, none, some sites,
    [("count", JVal.num sites.length)]⟩)

/-- `get_site` handler body (early error envelope on a missing site, as
in the source, not a thrown error). -/
def getSiteBody : TryBody := fun ctx =>
  let idv := vOf (objGet ctx.args "id")
  let namev := vOf (objGet ctx.args "name")
  let site : Option JObj :=
    if truthy idv then getSiteByIdV ctx.cfg.sites idv
    else if truthy namev then getSiteByNameV ctx.cfg.sites namev
    else none
  match site with
  | none => Except.ok (errorEnvelope ("Site not found: " ++
      jvalToString (if truthy idv then idv else namev)))
  | some s => Except.ok (okEnv ⟨"success", none,
      some (filterCredentials s (incArg ctx)), none, []⟩)

/-- `update_site` handler body (`const {id, ...updates} = args`).  A
non-string `id` can match no stored record, so it reports not-found as
the manager does. -/
def updateSiteBody : TryBody := fun ctx =>
  let updates := objRemove ctx.args "id"
  let idv := vOf (objGet ctx.args "id")
  let res := match idv with
    | JVal.str i => managerUpdateSite ctx.cfg i updates ctx.validation ctx.now
    | _ => Except.error ("[SiteManager] Site not found: " ++ jvalToString idv)
  match res with
  | Except.error m => Except.error m
  | Except.ok (site, _) => Except.ok (okEnv ⟨"success",
      some ("Site \"" ++ jvalToString (vOf (objGet site "name")) ++
        "\" updated successfully"),
      some (filterCredentials site (incArg ctx)), none, []⟩)

/-- `remove_site` handler body. -/
def removeSiteBody : TryBody := fun ctx =>
  let idv := vOf (objGet ctx.args "id")
  let success := match idv with
    | JVal.str i => (removeSite ctx.cfg i).1
    | _ => false
  if success then
    Except.ok (okEnv ⟨"success", some "Site removed successfully",
      none, none, []⟩)
  else
    Except.ok (errorEnvelope ("Site not found: " ++ jvalToString idv))

/-- `select_site` handler body. -/
def selectSiteBody : TryBody := fun ctx =>
  let idv := vOf (objGet ctx.args "id")
  let res := match idv with
    | JVal.str i => setActiveSite ctx.cfg i
    | _ => Except.error ("[SiteStorage] Site not found: " ++ jvalToString idv)
  match res with
  | Except.error m => Except.error m
  | Except.ok (site, _) => Except.ok (okEnv ⟨"success",
      some ("Site \"" ++ jvalToString (vOf (objGet site "name")) ++
        "\" selected as active site"),
      some (filterCredentials site (incArg ctx)), none, []⟩)

/-- `get_active_site` handler body (early error envelope when no active
site is set). -/
def getActiveSiteBody : TryBody := fun ctx =>
  match getActiveSite ctx.cfg with
  | none => Except.ok (errorEnvelope "No active site set")
  | some site => Except.ok (okEnv ⟨"success", none,
      some (filterCredentials site (incArg ctx)), none, []⟩)

/-- `test_site_connectivity` handler body: client construction throws on
an unknown site, then `client.ping()` is the backend round trip. -/
def testConnectivityBody : TryBody := fun ctx =>
  let idv := vOf (objGet ctx.args "id")
  let found := match idv with
    | JVal.str i => (getSiteById ctx.cfg.sites i).isSome
    | _ => false
  if found then
    match ctx.backend with
    | Except.error m => Except.error m
    | Except.ok v => Except.ok (okEnv ⟨"success",
        some (if truthy v then "Site is reachable" else "Site is not reachable"),
        none, none, [("reachable", v)]⟩)
  else Except.error ("[SiteManager] Site not found: " ++ jvalToString idv)

/-- `get_site_info` handler body. -/
def getSiteInfoBody : TryBody := fun ctx =>
  let idv := vOf (objGet ctx.args "id")
  let found := match idv with
    | JVal.str i => (getSiteById ctx.cfg.sites i).isSome
    | _ => false
  if found then
    match ctx.backend with
    | Except.error m => Except.error m
    | Except.ok v => Except.ok (okEnv ⟨"success", none, none, none,
        [("info", v)]⟩)
  else Except.error ("[SiteManager] Site not found: " ++ jvalToString idv)

/-- The shared client resolution of the post/page handlers and of the
woo-product module dispatcher: `args.site_id ? createClientForSite(...) :
createClientForActiveSite()`, where an unknown site or an unset active
site throws. -/
def resolveWpClient (ctx : CallCtx) : Except String Unit :=
  let sidv := vOf (objGet ctx.args "site_id")
  if truthy sidv then
    match sidv with
    | JVal.str i =>
      if (getSiteById ctx.cfg.sites i).isSome then Except.ok ()
      else Except.error ("[SiteManager] Site not found: " ++ i)
    | _ => Except.error ("[SiteManager] Site not found: " ++ jvalToString sidv)
  else
    match getActiveSite ctx.cfg with
    | none => Except.error "[SiteManager] No active site set"
    | some _ => Except.ok ()

/-- The shared shape of the ten post/page handler bodies: resolve the
client, run the backend call, and wrap its data into a success payload
whose message and domain fields are handler specific. -/
def wpBody (mkMsg : JObj → JVal → Option String)
    (mkExtra : JVal → List (String × JVal)) : TryBody := fun ctx =>
  match resolveWpClient ctx with
  | Except.error m => Except.error m
  | Except.ok _ =>
    match ctx.backend with
    | Except.error m => Except.error m
    | Except.ok v => Except.ok (okEnv ⟨"success", mkMsg ctx.args v, none, none,
        mkExtra v⟩)

def listPostsBody : TryBody :=
  wpBody (fun _ _ => none) (fun v => [("posts", v)])
def getPostBody : TryBody :=
  wpBody (fun _ _ => none) (fun v => [("post", v)])
def createPostBody : TryBody :=
  wpBody (fun args _ => some ("Post '" ++ jvalToString (vOf (objGet args "title")) ++
    "' created successfully")) (fun v => [("post", v)])
def updatePostBody : TryBody :=
  wpBody (fun _ _ => some "Post updated successfully") (fun v => [("post", v)])
def deletePostBody : TryBody :=
  wpBody (fun args _ => some (if truthy (vOf (objGet args "force")) then
    "Post permanently deleted" else "Post moved to trash"))
    (fun v => [("post", v)])
def listPagesBody : TryBody :=
  wpBody (fun _ _ => none) (fun v => [("pages", v)])
def getPageBody : TryBody :=
  wpBody (fun _ _ => none) (fun v => [("page", v)])
def createPageBody : TryBody :=
  wpBody (fun args _ => some ("Page '" ++ jvalToString (vOf (objGet args "title")) ++
    "' created successfully")) (fun v => [("page", v)])
def updatePageBody : TryBody :=
  wpBody (fun _ _ => some "Page updated successfully") (fun v => [("page", v)])
def deletePageBody : TryBody :=
  wpBody (fun args _ => some (if truthy (vOf (objGet args "force")) then
    "Page permanently deleted" else "Page moved to trash"))
    (fun v => [("page", v)])

/-- Message of the `TypeError` raised because `SiteManager` has no
`createClientForWoocommerce` method anywhere in the code base. -/
def typeErrNoWooFactory : String :=
  "siteManager.createClientForWoocommerce is not a function"

/-- A WooCommerce handler body (products and orders):
`const client = args.site_id ? siteManager.createClientForWoocommerce(args.site_id) : false`
throws a `TypeError` when `site_id` is present (the method does not
exist) and otherwise binds the client to `false`, so the later
`client.<method>(...)` call throws a `TypeError` as well; the backend is
never reached. -/
def wooBody (method : String) : TryBody := fun ctx =>
  if truthy (vOf (objGet ctx.args "site_id")) then
    Except.error typeErrNoWooFactory
  else
    Except.error ("client." ++ method ++ " is not a function")

def listProductsBody : TryBody := wooBody "get"
def createProductBody : TryBody := wooBody "post"
def updateProductBody : TryBody := wooBody "put"
def deleteProductBody : TryBody := wooBody "delete"
def listOrdersBody : TryBody := wooBody "get"
def createOrderBody : TryBody := wooBody "post"
def updateOrderBody : TryBody := wooBody "put"
def deleteOrderBody : TryBody := wooBody "delete"

/-- All `registerToolHandler` calls reached from
`WordPressMcpServer.registerTools`, in registration order. -/
def registrationSequence : List (String × TryBody) :=
  [("add_site", addSiteBody), ("list_sites", listSitesBody),
   ("get_site", getSiteBody), ("update_site", updateSiteBody),
   ("remove_site", removeSiteBody), ("select_site", selectSiteBody),
   ("get_active_site", getActiveSiteBody),
   ("test_site_connectivity", testConnectivityBody),
   ("get_site_info", getSiteInfoBody),
   ("list_posts", listPostsBody), ("get_post", getPostBody),
   ("create_post", createPostBody), ("update_post", updatePostBody),
   ("delete_post", deletePostBody),
   ("list_pages", listPagesBody), ("get_page", getPageBody),
   ("create_page", createPageBody), ("update_page", updatePageBody),
   ("delete_page", deletePageBody),
   ("list_products", listProductsBody), ("create_product", createProductBody),
   ("update_product", updateProductBody), ("delete_product", deleteProductBody),
   ("list_orders", listOrdersBody), ("create_order", createOrderBody),
   ("update_order", updateOrderBody), ("delete_order", deleteOrderBody)]

/-- JavaScript `Map.prototype.set`: replace in place when the key exists
(insertion order preserved), append otherwise. -/
def mapSet (m : List (String × α)) (k : String) (v : α) :
    List (String × α) :=
  if m.any (fun p => p.1 == k) then
    m.map (fun p => if p.1 == k then (k, v) else p)
  else m ++ [(k, v)]

/-- JavaScript `Map.prototype.get`. -/
def mapGet (m : List (String × α)) (k : String) : Option α :=
  (m.find? (fun p => p.1 == k)).map (fun p => p.2)

/-- The dispatch table `this.toolHandlers` after startup: every
registration wrapped in its try/catch and inserted with `Map.set`. -/
def buildHandlers (seq : List (String × TryBody)) :
    List (String × (CallCtx → ToolResult)) :=
  seq.foldl (fun m p => mapSet m p.1 (wrapTry p.2)) []

def toolHandlers : List (String × (CallCtx → ToolResult)) :=
  buildHandlers registrationSequence

/-- The centralized CallTool dispatcher of `server.js`: invoke the mapped
handler, or **throw** `Unknown tool: <name>` (the `Except.error` case)
when no handler is mapped. -/
def centralCallTool (handlers : List (String × (CallCtx → ToolResult)))
    (name : String) (ctx : CallCtx) : Except String ToolResult :=
  match mapGet handlers name with
  | some h => Except.ok (h ctx)
  | none => Except.error ("Unknown tool: " ++ name)

/-- The tool names of the woo-product module's local tool set. -/
def wooToolNames : List String :=
  ["list_products", "create_product", "update_product", "delete_product"]

/-- The HTTP verb each woo-product helper function invokes on its
`wc_client` local. -/
def wooInnerMethod : String → String
  | "list_products" => "get"
  | "create_product" => "post"
  | "update_product" => "put"
  | _ => "delete"

/-- The woo-product helper functions (`listProducts`, `createProduct`, …):
each has its own try/catch, rebuilds a `wc_client` that is `false` or a
call on the missing factory method, and therefore always returns an
error envelope carrying the `TypeError` message. -/
def wooInner (name : String) (ctx : CallCtx) : ToolResult :=
  if truthy (vOf (objGet ctx.args "site_id")) then
    errorEnvelope typeErrNoWooFactory
  else
    errorEnvelope ("wc_client." ++ wooInnerMethod name ++ " is not a function")

/-- The woo-product module's own CallTool request handler (the legacy
in-module dispatcher, registered but later overwritten by the
centralized one): unknown names delegate to `next` or, without a
delegate, produce the `Unknown tool` error envelope; known names resolve
the site client inside the outer try and run the helper. -/
def wooModuleCallTool (next : Option ToolResult) (name : String)
    (ctx : CallCtx) : ToolResult :=
  if name ∈ wooToolNames then
    match resolveWpClient ctx with
    | Except.error m => errorEnvelope m
    | Except.ok _ => wooInner name ctx
  else
    match next with
    | some r => r
    | none => errorEnvelope ("Unknown tool: " ++ name)

/-- A tool descriptor; the JSON schema is kept abstract as serialized
text, no claim inspects it. -/
structure ToolDef where
  name : String
  description : String
  inputSchema : String
deriving Repr, DecidableEq

/-- `registerToolDefinition`: unconditional append. -/
def registerToolDefinition (defs : List ToolDef) (d : ToolDef) :
    List ToolDef := defs ++ [d]

/-- `registerToolDefinitions`: append each in order. -/
def registerToolDefinitions (defs : List ToolDef) (ds : List ToolDef) :
    List ToolDef := ds.foldl registerToolDefinition defs

/-- The ListTools response of the centralized dispatcher:
`{ tools: this.toolDefinitions }`, the registry verbatim. -/
def listToolsResponse (defs : List ToolDef) : List ToolDef := defs

/-- `Except.ok`-ness as a boolean. -/
def exceptOk (e : Except String (JObj × SiteConfig)) : Bool :=
  match e with
  | Except.ok _ => true
  | Except.error _ => false

/-- The envelope-shape invariant of the system boundary: a single
`text` content item whose decoded payload's `status` is `success` or
`error`. -/
def shapeOk (r : ToolResult) : Prop :=
  ∃ p : Payload, r.content = [⟨"text", p⟩]
    ∧ (p.status = "success" ∨ p.status = "error")

/-! ### Concrete fixtures for instances -/

/-- A stored site record, as `addSite` would have created it. -/
def siteA : JObj :=
  [("id", JVal.str "site-1"), ("name", JVal.str "A"),
   ("url", JVal.str "https://a.test"), ("username", JVal.str "admin"),
   ("applicationPassword", JVal.str "pw"), ("createdAt", JVal.str "t0"),
   ("updatedAt", JVal.str "t0")]

/-- A configuration holding `siteA` and no active-site pointer. -/
def cfgA : SiteConfig := ⟨[siteA], none⟩

/-- The empty configuration. -/
def cfgEmpty : SiteConfig := ⟨[], none⟩

/-- A call context over the given arguments and configuration, with a
succeeding backend and validation. -/
def mkCtx (args : JObj) (cfg : SiteConfig) : CallCtx :=
  ⟨args, cfg, Except.ok JVal.null, Except.ok (), "fresh-1", "t1"⟩

/-- A call context whose backend round trip throws with the given
message. -/
def mkCtxThrow (args : JObj) (cfg : SiteConfig) (m : String) : CallCtx :=
  ⟨args, cfg, Except.error m, Except.ok (), "fresh-1", "t1"⟩

/-! ### Lemmas about the object embedding -/

theorem vOf_some (v : JVal) : vOf (some v) = v := rfl

theorem vOf_none : vOf none = JVal.undef := rfl

theorem objGet_cons (p : String × JVal) (o : JObj) (k : String) :
    objGet (p :: o) k = if p.1 == k then some p.2 else objGet o k := by
  simp only [objGet, List.find?_cons]
  cases h : p.1 == k <;> simp [h]

theorem objGet_objRemove_self (o : JObj) (k : String) :
    objGet (objRemove o k) k = none := by
  induction o with
  | nil => rfl
  | cons p o ih =>
    simp only [objRemove, List.filter_cons, bne] at *
    cases h : p.1 == k with
    | true => simpa [h] using ih
    | false => simpa [h, objGet_cons] using ih

theorem objGet_objRemove_ne (o : JObj) (k k' : String) (h : k' ≠ k) :
    objGet (objRemove o k) k' = objGet o k' := by
  induction o with
  | nil => rfl
  | cons p o ih =>
    simp only [objRemove, List.filter_cons, bne] at *
    cases hk : p.1 == k with
    | true =>
      have hp : p.1 = k := by simpa using hk
      have hne : (p.1 == k') = false := by
        simp [hp]
        exact Ne.symm h
      simpa [hk, objGet_cons, hne] using ih
    | false => simp [hk, objGet_cons, ih]

theorem objGet_append (a b : JObj) (k : String) :
    objGet (a ++ b) k = (objGet a k).or (objGet b k) := by
  simp only [objGet, List.find?_append]
  cases a.find? (fun p => p.1 == k) <;> simp

theorem objGet_map_keyfix (f : String × JVal → String × JVal)
    (hf : ∀ p, (f p).1 = p.1) (l : JObj) (k : String) :
    objGet (l.map f) k
      = (l.find? (fun p => p.1 == k)).map (fun p => (f p).2) := by
  induction l with
  | nil => rfl
  | cons p l ih =>
    simp only [List.map_cons, objGet_cons, List.find?_cons, hf]
    cases h : p.1 == k <;> simp [h, ih]

theorem find?_filter_keep (g : String × JVal → Bool) (l : JObj) (k : String)
    (hg : ∀ p : String × JVal, p.1 = k → g p = true) :
    (l.filter g).find? (fun p => p.1 == k)
      = l.find? (fun p => p.1 == k) := by
  induction l with
  | nil => rfl
  | cons p l ih =>
    simp only [List.filter_cons]
    cases hk : p.1 == k with
    | true =>
      have := hg p (by simpa using hk)
      simp [this, List.find?_cons, hk]
    | false =>
      cases hgp : g p with
      | true => simp [List.find?_cons, hk, ih]
      | false => simpa [List.find?_cons, hk] using ih

theorem objGet_filter_keep (g : String × JVal → Bool) (l : JObj) (k : String)
    (hg : ∀ p : String × JVal, p.1 = k → g p = true) :
    objGet (l.filter g) k = objGet l k := by
  simp only [objGet, find?_filter_keep g l k hg]

theorem objHas_eq_false_iff (o : JObj) (k : String) :
    objHas o k = false ↔ objGet o k = none := by
  induction o with
  | nil => simp [objHas, objGet]
  | cons p o ih =>
    cases h : p.1 == k with
    | true => simp [objHas, objGet_cons, h]
    | false => simpa [objHas, objGet_cons, h] using ih

theorem objGet_objMerge (a b : JObj) (k : String) :
    objGet (objMerge a b) k = (objGet b k).or (objGet a k) := by
  have hkey : ∀ p : String × JVal,
      ((match objGet b p.1 with
        | some v => (p.1, v)
        | none => p) : String × JVal).1 = p.1 := by
    intro p; cases objGet b p.1 <;> rfl
  simp only [objMerge, objGet_append]
  rw [objGet_map_keyfix _ hkey a k]
  cases ha : a.find? (fun p => p.1 == k) with
  | some p =>
    have hpk : p.1 = k := by simpa using List.find?_some ha
    have hak : objGet a k = some p.2 := by simp [objGet, ha]
    cases hb : objGet b k with
    | some v => simp [hpk, hb, hak]
    | none => simp [hpk, hb, hak]
  | none =>
    have hak : objGet a k = none := by simp [objGet, ha]
    have hnoa : objHas a k = false := (objHas_eq_false_iff a k).mpr hak
    rw [objGet_filter_keep _ b k (fun p hp => by simp [hp, hnoa])]
    cases objGet b k <;> simp [hak]

theorem objGet_objSet_self (o : JObj) (k : String) (v : JVal) :
    objGet (objSet o k v) k = some v := by
  rw [objSet, objGet_objMerge]
  simp [objGet_cons]

theorem objGet_objSet_ne (o : JObj) (k k' : String) (v : JVal) (h : k' ≠ k) :
    objGet (objSet o k v) k' = objGet o k' := by
  rw [objSet, objGet_objMerge]
  have hne : (k == k') = false := by
    simp
    exact Ne.symm h
  simp [objGet_cons, hne, objGet]

/-! ### Lemmas about the dispatch table -/

theorem mapSet_not_mem {α : Type} (m : List (String × α)) (k : String) (v : α)
    (h : m.any (fun p => p.1 == k) = false) : mapSet m k v = m ++ [(k, v)] := by
  simp [mapSet, h]

theorem buildHandlers_aux (seq : List (String × TryBody))
    (m : List (String × (CallCtx → ToolResult)))
    (hdisj : ∀ k, k ∈ seq.map Prod.fst → m.any (fun p => p.1 == k) = false)
    (hnd : (seq.map Prod.fst).Nodup) :
    seq.foldl (fun m p => mapSet m p.1 (wrapTry p.2)) m
      = m ++ seq.map (fun p => (p.1, wrapTry p.2)) := by
  induction seq generalizing m with
  | nil => simp
  | cons q rest ih =>
    simp only [List.foldl_cons]
    rw [mapSet_not_mem m q.1 _ (hdisj q.1 (by simp))]
    simp only [List.map_cons] at hnd
    have hnd' := List.nodup_cons.mp hnd
    rw [ih (m ++ [(q.1, wrapTry q.2)])]
    · simp
    · intro k hk
      have hne : (q.1 == k) = false := by
        simp
        intro he
        exact hnd'.1 (he ▸ hk)
      simp [List.any_append, hdisj k (by simp [hk]), hne]
    · exact hnd'.2

theorem registrationNames_nodup :
    (registrationSequence.map Prod.fst).Nodup := by
  decide

theorem toolHandlers_eq :
    toolHandlers = registrationSequence.map (fun p => (p.1, wrapTry p.2)) := by
  have := buildHandlers_aux registrationSequence []
    (fun k _ => rfl) registrationNames_nodup
  simpa [toolHandlers, buildHandlers] using this

theorem mapGet_map_of_mem (seq : List (String × TryBody)) (name : String)
    (body : TryBody) (hmem : (name, body) ∈ seq)
    (hnd : (seq.map Prod.fst).Nodup) :
    mapGet (seq.map (fun p => (p.1, wrapTry p.2))) name
      = some (wrapTry body) := by
  induction seq with
  | nil => cases hmem
  | cons q rest ih =>
    simp only [List.map_cons] at hnd
    have hnd' := List.nodup_cons.mp hnd
    rcases List.mem_cons.mp hmem with heq | hmem'
    · have h1 : q.1 = name := by rw [← heq]
      have h2 : q.2 = body := by rw [← heq]
      simp [mapGet, List.find?_cons, h1, h2]
    · have hname : name ∈ rest.map Prod.fst := by
        exact List.mem_map.mpr ⟨(name, body), hmem', rfl⟩
      have hne : (q.1 == name) = false := by
        simp
        intro he
        exact hnd'.1 (he ▸ hname)
      simp only [List.map_cons, mapGet, List.find?_cons, hne]
      exact ih hmem' hnd'.2

theorem mapGet_toolHandlers (name : String) (body : TryBody)
    (hmem : (name, body) ∈ registrationSequence) :
    mapGet toolHandlers name = some (wrapTry body) := by
  rw [toolHandlers_eq]
  exact mapGet_map_of_mem registrationSequence name body hmem
    registrationNames_nodup

theorem mapGet_map_isSome_of_mem (seq : List (String × TryBody)) (name : String)
    (hmem : name ∈ seq.map Prod.fst) :
    (mapGet (seq.map (fun p => (p.1, wrapTry p.2))) name).isSome = true := by
  induction seq with
  | nil => cases hmem
  | cons q rest ih =>
    cases hq : q.1 == name with
    | true => simp [mapGet, List.find?_cons, hq]
    | false =>
      simp only [List.map_cons, List.mem_cons] at hmem
      have hmem' : name ∈ rest.map Prod.fst := by
        rcases hmem with heq | h'
        · exact absurd (by simp [heq] : (q.1 == name) = true) (by simp [hq])
        · exact h'
      simp only [List.map_cons, mapGet, List.find?_cons, hq]
      exact ih hmem'

theorem mapGet_toolHandlers_none_not_registered (name : String)
    (h : mapGet toolHandlers name = none) :
    name ∉ registrationSequence.map Prod.fst := by
  intro hmem
  have := mapGet_map_isSome_of_mem registrationSequence name hmem
  rw [← toolHandlers_eq] at this
  simp [h] at this

theorem removeFirst_append (old : List JObj) (r : JObj) (p : JObj → Bool)
    (hold : ∀ s ∈ old, p s = false) (hr : p r = true) :
    removeFirst (old ++ [r]) p = some old := by
  induction old with
  | nil => simp [removeFirst, hr]
  | cons s rest ih =>
    have hs : p s = false := hold s (by simp)
    have ih' := ih (fun x hx => hold x (by simp [hx]))
    rw [List.cons_append, removeFirst, hs, ih']
    rfl

/-! ### C4: add-time conflict detection -/

/-- C4 counterexample: with `siteA` (url `https://a.test`) stored, adding
a site whose url `https://A.test` differs from the stored url only in
letter case **succeeds** — `addSite` raises no conflict, refuting the
claim that a url differing only in letter case normalizes equal and
conflicts. -/
theorem C4_counterexample :
    exceptOk (addSite cfgA
      [("name", JVal.str "B"), ("url", JVal.str "https://A.test")]
      "site-2" "t1") = true
    ∧ "https://A.test".data.map Char.toLower
        = "https://a.test".data.map Char.toLower
    ∧ objGet siteA "url" = some (JVal.str "https://a.test") :=
  ⟨by decide, by decide, rfl⟩

/-- C4 (amended): `addSite` fails with an "already exists" conflict error
precisely when the candidate's `name` strictly equals a stored name or
its url matches a stored url after dropping a single trailing slash; the
url comparison is case-sensitive, so a url differing only in letter case
does not conflict, and the add succeeds when no conflict exists. -/
theorem C4_amended (cfg : SiteConfig) (site : JObj) (u freshId now : String)
    (hurl : objGet site "url" = some (JVal.str u)) (hu : u ≠ "")
    (hname : truthy (vOf (objGet site "name")) = true) :
    ((getSiteByNameV cfg.sites (vOf (objGet site "name"))).isSome = true
        ∨ (getSiteByUrl cfg.sites u).isSome = true →
      addSite cfg site freshId now
          = Except.error ("[SiteStorage] A site with the name \""
              ++ jvalToString (vOf (objGet site "name")) ++ "\" already exists")
        ∨ addSite cfg site freshId now
          = Except.error ("[SiteStorage] A site with the URL \"" ++ u
              ++ "\" already exists"))
    ∧ ((getSiteByNameV cfg.sites (vOf (objGet site "name"))).isSome = false →
        (getSiteByUrl cfg.sites u).isSome = false →
        exceptOk (addSite cfg site freshId now) = true) := by
  have hu' : truthy (JVal.str u) = true := by simp [truthy, hu]
  constructor
  · intro hconf
    by_cases hn : (getSiteByNameV cfg.sites (vOf (objGet site "name"))).isSome = true
    · left
      unfold addSite
      simp [hurl, vOf_some, hname, hu', hn]
    · have hn' : (getSiteByNameV cfg.sites
          (vOf (objGet site "name"))).isSome = false := by
        simpa using hn
      have hc : (getSiteByUrl cfg.sites u).isSome = true := by
        rcases hconf with h | h
        · exact absurd h hn
        · exact h
      right
      unfold addSite
      simp [hurl, vOf_some, hname, hu', hn', hc]
  · intro hn hurlc
    unfold addSite
    simp [hurl, vOf_some, hname, hu', hn, hurlc, exceptOk]

theorem shapeOk_errorEnvelope (m : String) : shapeOk (errorEnvelope m) :=
  ⟨⟨"error", some m, none, none, []⟩, rfl, Or.inr rfl⟩

theorem shapeOk_okEnv_success (msg : Option String) (site : Option JObj)
    (sites : Option (List JObj)) (extra : List (String × JVal)) :
    shapeOk (okEnv ⟨"success", msg, site, sites, extra⟩) :=
  ⟨⟨"success", msg, site, sites, extra⟩, rfl, Or.inl rfl⟩

theorem shapeOk_wrapTry (body : TryBody)
    (hb : ∀ ctx r, body ctx = Except.ok r → shapeOk r) (ctx : CallCtx) :
    shapeOk (wrapTry body ctx) := by
  unfold wrapTry
  cases h : body ctx with
  | ok r => exact hb ctx r h
  | error m => exact shapeOk_errorEnvelope m

theorem wpBody_ok_shape (mkMsg : JObj → JVal → Option String)
    (mkExtra : JVal → List (String × JVal)) :
    ∀ ctx r, wpBody mkMsg mkExtra ctx = Except.ok r → shapeOk r := by
  intro ctx r h
  unfold wpBody at h
  split at h
  · simp at h
  split at h
  · simp at h
  · simp only [Except.ok.injEq] at h
    subst h
    exact shapeOk_okEnv_success _ _ _ _

theorem wooBody_ok_shape (method : String) :
    ∀ ctx r, wooBody method ctx = Except.ok r → shapeOk r := by
  intro ctx r h
  unfold wooBody at h
  split at h <;> simp at h

theorem addSiteBody_ok_shape :
    ∀ ctx r, addSiteBody ctx = Except.ok r → shapeOk r := by
  intro ctx r h
  unfold addSiteBody at h
  split at h
  · simp at h
  · simp only [Except.ok.injEq] at h
    subst h
    exact shapeOk_okEnv_success _ _ _ _

theorem listSitesBody_ok_shape :
    ∀ ctx r, listSitesBody ctx = Except.ok r → shapeOk r := by
  intro ctx r h
  unfold listSitesBody at h
  simp only [Except.ok.injEq] at h
  subst h
  exact shapeOk_okEnv_success _ _ _ _

theorem getSiteBody_ok_shape :
    ∀ ctx r, getSiteBody ctx = Except.ok r → shapeOk r := by
  intro ctx r h
  simp only [getSiteBody] at h
  split at h <;> simp only [Except.ok.injEq] at h <;> subst h
  · exact shapeOk_errorEnvelope _
  · exact shapeOk_okEnv_success _ _ _ _

theorem updateSiteBody_ok_shape :
    ∀ ctx r, updateSiteBody ctx = Except.ok r → shapeOk r := by
  intro ctx r h
  simp only [updateSiteBody] at h
  split at h
  · simp at h
  · simp only [Except.ok.injEq] at h
    subst h
    exact shapeOk_okEnv_success _ _ _ _

theorem removeSiteBody_ok_shape :
    ∀ ctx r, removeSiteBody ctx = Except.ok r → shapeOk r := by
  intro ctx r h
  simp only [removeSiteBody] at h
  split at h <;> simp only [Except.ok.injEq] at h <;> subst h
  · exact shapeOk_okEnv_success _ _ _ _
  · exact shapeOk_errorEnvelope _

theorem selectSiteBody_ok_shape :
    ∀ ctx r, selectSiteBody ctx = Except.ok r → shapeOk r := by
  intro ctx r h
  simp only [selectSiteBody] at h
  split at h
  · simp at h
  · simp only [Except.ok.injEq] at h
    subst h
    exact shapeOk_okEnv_success _ _ _ _

theorem getActiveSiteBody_ok_shape :
    ∀ ctx r, getActiveSiteBody ctx = Except.ok r → shapeOk r := by
  intro ctx r h
  unfold getActiveSiteBody at h
  split at h <;> simp only [Except.ok.injEq] at h <;> subst h
  · exact shapeOk_errorEnvelope _
  · exact shapeOk_okEnv_success _ _ _ _

theorem testConnectivityBody_ok_shape :
    ∀ ctx r, testConnectivityBody ctx = Except.ok r → shapeOk r := by
  intro ctx r h
  simp only [testConnectivityBody] at h
  split at h
  · split at h
    · simp at h
    · simp only [Except.ok.injEq] at h
      subst h
      exact shapeOk_okEnv_success _ _ _ _
  · simp at h

theorem getSiteInfoBody_ok_shape :
    ∀ ctx r, getSiteInfoBody ctx = Except.ok r → shapeOk r := by
  intro ctx r h
  simp only [getSiteInfoBody] at h
  split at h
  · split at h
    · simp at h
    · simp only [Except.ok.injEq] at h
      subst h
      exact shapeOk_okEnv_success _ _ _ _
  · simp at h

theorem regBodies_ok_shape :
    ∀ p ∈ registrationSequence, ∀ ctx r, p.2 ctx = Except.ok r → shapeOk r := by
  intro p hp
  fin_cases hp
  · exact addSiteBody_ok_shape
  · exact listSitesBody_ok_shape
  · exact getSiteBody_ok_shape
  · exact updateSiteBody_ok_shape
  · exact removeSiteBody_ok_shape
  · exact selectSiteBody_ok_shape
  · exact getActiveSiteBody_ok_shape
  · exact testConnectivityBody_ok_shape
  · exact getSiteInfoBody_ok_shape
  · exact wpBody_ok_shape (fun _ _ => none) (fun v => [("posts", v)])
  · exact wpBody_ok_shape (fun _ _ => none) (fun v => [("post", v)])
  · exact wpBody_ok_shape (fun args _ => some ("Post '" ++
      jvalToString (vOf (objGet args "title")) ++ "' created successfully"))
      (fun v => [("post", v)])
  · exact wpBody_ok_shape (fun _ _ => some "Post updated successfully")
      (fun v => [("post", v)])
  · exact wpBody_ok_shape (fun args _ => some
      (if truthy (vOf (objGet args "force")) then "Post permanently deleted"
       else "Post moved to trash")) (fun v => [("post", v)])
  · exact wpBody_ok_shape (fun _ _ => none) (fun v => [("pages", v)])
  · exact wpBody_ok_shape (fun _ _ => none) (fun v => [("page", v)])
  · exact wpBody_ok_shape (fun args _ => some ("Page '" ++
      jvalToString (vOf (objGet args "title")) ++ "' created successfully"))
      (fun v => [("page", v)])
  · exact wpBody_ok_shape (fun _ _ => some "Page updated successfully")
      (fun v => [("page", v)])
  · exact wpBody_ok_shape (fun args _ => some
      (if truthy (vOf (objGet args "force")) then "Page permanently deleted"
       else "Page moved to trash")) (fun v => [("page", v)])
  · exact wooBody_ok_shape "get"
  · exact wooBody_ok_shape "post"
  · exact wooBody_ok_shape "put"
  · exact wooBody_ok_shape "delete"
  · exact wooBody_ok_shape "get"
  · exact wooBody_ok_shape "post"
  · exact wooBody_ok_shape "put"
  · exact wooBody_ok_shape "delete"

/-! ### C8: the envelope shape invariant -/

/-- C8: every registered handler, on every call context, returns an
envelope `{content:[{type:"text", text:<payload>}], isError?}` whose
decoded payload has status `success` or `error`, and a CallTool
invocation of that tool returns exactly that envelope through the
dispatcher. -/
theorem C8_envelope_shape (name : String) (body : TryBody)
    (hmem : (name, body) ∈ registrationSequence) (ctx : CallCtx) :
    shapeOk (wrapTry body ctx)
    ∧ centralCallTool toolHandlers name ctx
        = Except.ok (wrapTry body ctx) := by
  constructor
  · exact shapeOk_wrapTry body
      (regBodies_ok_shape (name, body) hmem) ctx
  · unfold centralCallTool
    rw [mapGet_toolHandlers name body hmem]

/-- C8 witness: the shape invariant at an `add_site` call on the empty
configuration. -/
theorem C8_witness :
    shapeOk (wrapTry addSiteBody
      (mkCtx [("name", JVal.str "A"), ("url", JVal.str "https://a.test")]
        cfgEmpty))
    ∧ centralCallTool toolHandlers "add_site"
        (mkCtx [("name", JVal.str "A"), ("url", JVal.str "https://a.test")]
          cfgEmpty)
      = Except.ok (wrapTry addSiteBody
          (mkCtx [("name", JVal.str "A"), ("url", JVal.str "https://a.test")]
            cfgEmpty)) :=
  C8_envelope_shape "add_site" addSiteBody (by simp [registrationSequence])
    (mkCtx [("name", JVal.str "A"), ("url", JVal.str "https://a.test")]
      cfgEmpty)

/-! ### C1: unknown tool name -/

/-- C1 counterexample: with every handler of the code base registered, a
CallTool request for the unregistered name `bogus` makes the active
centralized dispatcher **throw** `Unknown tool: bogus` (`Except.error`,
the embedded thrown `Error`) — a raised fault escaping the dispatcher,
not an `isError:true` envelope returned to the client. -/
theorem C1_counterexample :
    centralCallTool toolHandlers "bogus" (mkCtx [] cfgEmpty)
      = Except.error "Unknown tool: bogus" :=
  rfl

/-- C1 (amended): for every tool name without a registered handler, the
active centralized dispatcher raises `Error("Unknown tool: <name>")`
which escapes to the SDK layer; the `{status:"error", message:"Unknown
tool: <name>"}` envelope with `isError:true` is produced only by the
woo-product module's own (later overwritten) CallTool handler when no
delegate exists. -/
theorem C1_amended (name : String) (ctx : CallCtx)
    (h : mapGet toolHandlers name = none) :
    centralCallTool toolHandlers name ctx
        = Except.error ("Unknown tool: " ++ name)
    ∧ wooModuleCallTool none name ctx
        = errorEnvelope ("Unknown tool: " ++ name) := by
  constructor
  · unfold centralCallTool
    rw [h]
  · have hnot := mapGet_toolHandlers_none_not_registered name h
    have hw : name ∉ wooToolNames := by
      intro hin
      apply hnot
      simp only [wooToolNames, List.mem_cons, List.not_mem_nil, or_false] at hin
      rcases hin with rfl | rfl | rfl | rfl <;> decide
    unfold wooModuleCallTool
    rw [if_neg hw]

/-- C1 witness: the amended statement at the concrete name `bogus`. -/
theorem C1_witness :
    centralCallTool toolHandlers "bogus" (mkCtx [("x", JVal.num 1)] cfgA)
        = Except.error "Unknown tool: bogus"
    ∧ wooModuleCallTool none "bogus" (mkCtx [("x", JVal.num 1)] cfgA)
        = errorEnvelope "Unknown tool: bogus" :=
  C1_amended "bogus" (mkCtx [("x", JVal.num 1)] cfgA) rfl

/-! ### C2: thrown backend errors become envelopes -/

/-- C2: for every registered tool and every call context, whenever the
handler's try-block throws (in particular when the backend call throws
or its promise rejects), the handler returns the `{status:"error",
message:<thrown message>}` envelope with `isError:true`, and the
centralized dispatcher returns it normally (`Except.ok`) — no exception
escapes to the transport layer. -/
theorem C2_propagation (name : String) (body : TryBody)
    (hmem : (name, body) ∈ registrationSequence)
    (ctx : CallCtx) (m : String) (hthrow : body ctx = Except.error m) :
    wrapTry body ctx = errorEnvelope m
    ∧ centralCallTool toolHandlers name ctx = Except.ok (errorEnvelope m) := by
  have h1 : wrapTry body ctx = errorEnvelope m := by
    unfold wrapTry
    rw [hthrow]
  refine ⟨h1, ?disp⟩
  unfold centralCallTool
  rw [mapGet_toolHandlers name body hmem]
  show Except.ok (wrapTry body ctx) = Except.ok (errorEnvelope m)
  rw [h1]

/-- C2 witness: a `get_site_info` call whose backend round trip throws
`boom` produces the `boom` error envelope through the dispatcher. -/
theorem C2_witness :
    wrapTry getSiteInfoBody
        (mkCtxThrow [("id", JVal.str "site-1")] cfgA "boom")
      = errorEnvelope "boom"
    ∧ centralCallTool toolHandlers "get_site_info"
        (mkCtxThrow [("id", JVal.str "site-1")] cfgA "boom")
      = Except.ok (errorEnvelope "boom") :=
  C2_propagation "get_site_info" getSiteInfoBody
    (by simp [registrationSequence])
    (mkCtxThrow [("id", JVal.str "site-1")] cfgA "boom") "boom" rfl

/-! ### C3: list_products with no site_id and no active site -/

/-- C3 counterexample: `list_products({per_page:10, page:1})` with no
`site_id` and no active site does return an `isError:true` envelope, but
its message is the `TypeError` from invoking `.get` on the literal
`false` the registered handler binds in place of a client — not the
factory's `No active site set` error.  The factory is never consulted. -/
theorem C3_counterexample :
    wrapTry listProductsBody
        (mkCtx [("per_page", JVal.num 10), ("page", JVal.num 1)] cfgEmpty)
      = errorEnvelope "client.get is not a function"
    ∧ "client.get is not a function" ≠ "[SiteManager] No active site set" :=
  ⟨rfl, by decide⟩

/-- C3 (amended): with no truthy `site_id`, the registered `list_products`
handler returns the `client.get is not a function` error envelope
regardless of the site configuration or backend (it never resolves the
active site via the factory); the factory's `[SiteManager] No active
site set` error surfaces only through the woo-product module's own
overwritten CallTool dispatcher, which does resolve the active site
first. -/
theorem C3_amended (args : JObj) (cfg cfg2 : SiteConfig)
    (b b2 : Except String JVal) (v v2 : Except String Unit)
    (f f2 n n2 : String)
    (hsid : truthy (vOf (objGet args "site_id")) = false)
    (hact : getActiveSite cfg = none) :
    wrapTry listProductsBody ⟨args, cfg, b, v, f, n⟩
        = errorEnvelope "client.get is not a function"
    ∧ wrapTry listProductsBody ⟨args, cfg, b, v, f, n⟩
        = wrapTry listProductsBody ⟨args, cfg2, b2, v2, f2, n2⟩
    ∧ wooModuleCallTool none "list_products" ⟨args, cfg, b, v, f, n⟩
        = errorEnvelope "[SiteManager] No active site set" := by
  have h1 : ∀ (cfg' : SiteConfig) (b' : Except String JVal)
      (v' : Except String Unit) (f' n' : String),
      wrapTry listProductsBody ⟨args, cfg', b', v', f', n'⟩
        = errorEnvelope "client.get is not a function" := by
    intro cfg' b' v' f' n'
    unfold wrapTry listProductsBody wooBody
    simp [hsid]
  refine ⟨h1 cfg b v f n, (h1 cfg b v f n).trans (h1 cfg2 b2 v2 f2 n2).symm, ?legacy⟩
  unfold wooModuleCallTool
  rw [if_pos (by decide : "list_products" ∈ wooToolNames)]
  unfold resolveWpClient
  simp [hsid, hact]

/-- C3 witness: the amended statement at the concrete scenario
`{per_page:10, page:1}` against the empty configuration. -/
theorem C3_witness :
    wrapTry listProductsBody
        (mkCtx [("per_page", JVal.num 10), ("page", JVal.num 1)] cfgEmpty)
      = errorEnvelope "client.get is not a function"
    ∧ wooModuleCallTool none "list_products"
        (mkCtx [("per_page", JVal.num 10), ("page", JVal.num 1)] cfgEmpty)
      = errorEnvelope "[SiteManager] No active site set" := by
  have h := C3_amended [("per_page", JVal.num 10), ("page", JVal.num 1)]
    cfgEmpty cfgA (Except.ok JVal.null) (Except.ok JVal.null)
    (Except.ok ()) (Except.ok ()) "fresh-1" "fresh-1" "t1" "t1" rfl rfl
  exact ⟨h.1, h.2.2⟩

/-! ### C9: credential filtering -/

/-- C9: `filterCredentials` removes exactly the `applicationPassword`
property when `includeCredentials` is absent or falsy — every other
property, `username` included, is unchanged — and returns the record in
full when it is truthy; and each site-management handler embeds the
returned site object(s) as `filterCredentials` of the stored record. -/
theorem C9_credentials :
    (∀ (site : JObj) (inc : JVal), truthy inc = false →
      filterCredentials site inc = objRemove site "applicationPassword"
      ∧ objGet (filterCredentials site inc) "applicationPassword" = none
      ∧ ∀ k, k ≠ "applicationPassword" →
          objGet (filterCredentials site inc) k = objGet site k)
    ∧ (∀ (site : JObj) (inc : JVal), truthy inc = true →
        filterCredentials site inc = site)
    ∧ (∀ (ctx : CallCtx) (site : JObj),
        (if truthy (vOf (objGet ctx.args "id"))
          then getSiteByIdV ctx.cfg.sites (vOf (objGet ctx.args "id"))
          else if truthy (vOf (objGet ctx.args "name"))
            then getSiteByNameV ctx.cfg.sites (vOf (objGet ctx.args "name"))
            else none) = some site →
        wrapTry getSiteBody ctx = okEnv ⟨"success", none,
          some (filterCredentials site (incArg ctx)), none, []⟩)
    ∧ (∀ (ctx : CallCtx) (site : JObj), getActiveSite ctx.cfg = some site →
        wrapTry getActiveSiteBody ctx = okEnv ⟨"success", none,
          some (filterCredentials site (incArg ctx)), none, []⟩)
    ∧ (∀ ctx : CallCtx, wrapTry listSitesBody ctx = okEnv ⟨"success", none,
        none,
        some (ctx.cfg.sites.map (fun s => filterCredentials s (incArg ctx))),
        [("count", JVal.num
          (ctx.cfg.sites.map (fun s => filterCredentials s (incArg ctx))).length)]⟩)
    ∧ (∀ (ctx : CallCtx) (site : JObj) (cfg2 : SiteConfig),
        managerAddSite ctx.cfg ctx.args ctx.validation ctx.freshId ctx.now
          = Except.ok (site, cfg2) →
        wrapTry addSiteBody ctx = okEnv ⟨"success",
          some ("Site \"" ++ jvalToString (vOf (objGet ctx.args "name"))
            ++ "\" added successfully"),
          some (filterCredentials site (incArg ctx)), none, []⟩)
    ∧ (∀ (ctx : CallCtx) (i : String) (site : JObj) (cfg2 : SiteConfig),
        vOf (objGet ctx.args "id") = JVal.str i →
        managerUpdateSite ctx.cfg i (objRemove ctx.args "id")
            ctx.validation ctx.now = Except.ok (site, cfg2) →
        wrapTry updateSiteBody ctx = okEnv ⟨"success",
          some ("Site \"" ++ jvalToString (vOf (objGet site "name"))
            ++ "\" updated successfully"),
          some (filterCredentials site (incArg ctx)), none, []⟩)
    ∧ (∀ (ctx : CallCtx) (i : String) (site : JObj) (cfg2 : SiteConfig),
        vOf (objGet ctx.args "id") = JVal.str i →
        setActiveSite ctx.cfg i = Except.ok (site, cfg2) →
        wrapTry selectSiteBody ctx = okEnv ⟨"success",
          some ("Site \"" ++ jvalToString (vOf (objGet site "name"))
            ++ "\" selected as active site"),
          some (filterCredentials site (incArg ctx)), none, []⟩) := by
  refine ⟨?filt, ?full, ?getSite, ?getActive, ?listSites, ?addS, ?updS, ?selS⟩
  case filt =>
    intro site inc hinc
    have hf : filterCredentials site inc
        = objRemove site "applicationPassword" := by
      simp [filterCredentials, hinc]
    refine ⟨hf, ?z, ?o⟩
    case z => rw [hf]; exact objGet_objRemove_self site "applicationPassword"
    case o =>
      intro k hk
      rw [hf]
      exact objGet_objRemove_ne site "applicationPassword" k hk
  case full =>
    intro site inc hinc
    simp [filterCredentials, hinc]
  case getSite =>
    intro ctx site h
    unfold wrapTry
    simp only [getSiteBody]
    rw [h]
  case getActive =>
    intro ctx site h
    unfold wrapTry
    simp only [getActiveSiteBody]
    rw [h]
  case listSites =>
    intro ctx
    rfl
  case addS =>
    intro ctx site cfg2 h
    unfold wrapTry
    simp only [addSiteBody]
    rw [h]
  case updS =>
    intro ctx i site cfg2 hid h
    unfold wrapTry
    simp only [updateSiteBody]
    rw [hid]
    simp only []
    rw [h]
  case selS =>
    intro ctx i site cfg2 hid h
    unfold wrapTry
    simp only [selectSiteBody]
    rw [hid]
    simp only []
    rw [h]

/-- C9 witness: filtering `siteA` with `includeCredentials` absent
removes `applicationPassword` and keeps `username`; with
`includeCredentials` true the record is returned in full; and the
`get_active_site` handler embeds the filtered record. -/
theorem C9_witness :
    objGet (filterCredentials siteA JVal.undef) "applicationPassword" = none
    ∧ objGet (filterCredentials siteA JVal.undef) "username"
        = some (JVal.str "admin")
    ∧ filterCredentials siteA (JVal.bool true) = siteA
    ∧ wrapTry getActiveSiteBody (mkCtx [] ⟨[siteA], some "site-1"⟩)
        = okEnv ⟨"success", none,
            some (filterCredentials siteA
              (incArg (mkCtx [] ⟨[siteA], some "site-1"⟩))), none, []⟩ := by
  have h1 := C9_credentials.1 siteA JVal.undef rfl
  have h2 := C9_credentials.2.1 siteA (JVal.bool true) rfl
  have h4 := C9_credentials.2.2.2.1 (mkCtx [] ⟨[siteA], some "site-1"⟩)
    siteA rfl
  exact ⟨h1.2.1, (h1.2.2 "username" (by decide)).trans rfl, h2, h4⟩

/-! ### C10: stored record shape -/

/-- C10: any record `addSite` stores and returns has exactly the seven
fields `id`, `name`, `url`, `username`, `applicationPassword`,
`createdAt`, `updatedAt`, in that order; any other supplied input field
(for example `consumerKey` or `consumerSecret`) is silently discarded
and absent from the stored record, and the record appended to the store
is exactly the returned one. -/
theorem C10_keys (cfg : SiteConfig) (site : JObj) (freshId now : String)
    (r : JObj) (cfg' : SiteConfig)
    (h : addSite cfg site freshId now = Except.ok (r, cfg')) :
    objKeys r = ["id", "name", "url", "username", "applicationPassword",
      "createdAt", "updatedAt"]
    ∧ objGet r "consumerKey" = none
    ∧ objGet r "consumerSecret" = none
    ∧ (∀ k, k ∉ ["id", "name", "url", "username", "applicationPassword",
        "createdAt", "updatedAt"] → objGet r k = none)
    ∧ cfg'.sites = cfg.sites ++ [r] := by
  simp only [addSite] at h
  split at h
  · simp at h
  split at h
  · simp at h
  split at h
  · simp at h
  split at h
  case _ u =>
    split at h
    · simp at h
    · simp only [Except.ok.injEq, Prod.mk.injEq] at h
      obtain ⟨hr, hc⟩ := h
      subst hr
      refine ⟨rfl, rfl, rfl, ?other, ?stored⟩
      case other =>
        intro k hk
        simp only [List.mem_cons, List.mem_singleton, not_or] at hk
        obtain ⟨h1, h2, h3, h4, h5, h6, h7, -⟩ := hk
        simp [objGet, objGet_cons, Ne.symm h1, Ne.symm h2, Ne.symm h3,
          Ne.symm h4, Ne.symm h5, Ne.symm h6, Ne.symm h7]
      case stored =>
        rw [← hc]
  · simp at h

/-- C10 witness: adding a site that supplies `consumerKey` and
`consumerSecret` stores a record with exactly the seven fields and
without the extra ones. -/
theorem C10_witness :
    objKeys
        [("id", JVal.str "site-9"), ("name", JVal.str "A"),
         ("url", JVal.str "https://a.test"), ("username", JVal.undef),
         ("applicationPassword", JVal.undef), ("createdAt", JVal.str "t1"),
         ("updatedAt", JVal.str "t1")]
      = ["id", "name", "url", "username", "applicationPassword",
         "createdAt", "updatedAt"]
    ∧ objGet
        [("id", JVal.str "site-9"), ("name", JVal.str "A"),
         ("url", JVal.str "https://a.test"), ("username", JVal.undef),
         ("applicationPassword", JVal.undef), ("createdAt", JVal.str "t1"),
         ("updatedAt", JVal.str "t1")] "consumerKey" = none
    ∧ objGet
        [("id", JVal.str "site-9"), ("name", JVal.str "A"),
         ("url", JVal.str "https://a.test"), ("username", JVal.undef),
         ("applicationPassword", JVal.undef), ("createdAt", JVal.str "t1"),
         ("updatedAt", JVal.str "t1")] "consumerSecret" = none := by
  have h := C10_keys cfgEmpty
    [("name", JVal.str "A"), ("url", JVal.str "https://a.test"),
     ("consumerKey", JVal.str "ck"), ("consumerSecret", JVal.str "cs")]
    "site-9" "t1"
    [("id", JVal.str "site-9"), ("name", JVal.str "A"),
     ("url", JVal.str "https://a.test"), ("username", JVal.undef),
     ("applicationPassword", JVal.undef), ("createdAt", JVal.str "t1"),
     ("updatedAt", JVal.str "t1")]
    ⟨[[("id", JVal.str "site-9"), ("name", JVal.str "A"),
       ("url", JVal.str "https://a.test"), ("username", JVal.undef),
       ("applicationPassword", JVal.undef), ("createdAt", JVal.str "t1"),
       ("updatedAt", JVal.str "t1")]], none⟩ rfl
  exact ⟨h.1, h.2.1, h.2.2.1⟩

/-! ### C7: registration asymmetry -/

/-- C7: registering two descriptors that share a name appends both, so
the ListTools response carries two descriptors in registration order (no
de-duplication); binding two handlers under one name leaves exactly one
dispatch-table entry whose handler is the later one (last writer wins). -/
theorem C7_asymmetry (defs : List ToolDef) (d1 d2 : ToolDef)
    (_hname : d1.name = d2.name)
    (m : List (String × (CallCtx → ToolResult))) (n : String)
    (h1 h2 : CallCtx → ToolResult)
    (hn : m.any (fun p => p.1 == n) = false) :
    listToolsResponse (registerToolDefinitions defs [d1, d2])
        = defs ++ [d1, d2]
    ∧ mapGet (mapSet (mapSet m n h1) n h2) n = some h2
    ∧ (mapSet (mapSet m n h1) n h2).countP (fun p => p.1 == n) = 1 := by
  have hm : ∀ p ∈ m, (p.1 == n) = false := by
    intro p hp
    by_contra hc
    have hpt : (p.1 == n) = true := by simpa using hc
    have : m.any (fun p => p.1 == n) = true :=
      List.any_eq_true.mpr ⟨p, hp, hpt⟩
    simp [hn] at this
  have hstep1 : mapSet m n h1 = m ++ [(n, h1)] := mapSet_not_mem m n h1 hn
  have hany : (m ++ [(n, h1)]).any (fun p => p.1 == n) = true := by
    simp [List.any_append]
  have hstep2 : mapSet (m ++ [(n, h1)]) n h2 = m ++ [(n, h2)] := by
    unfold mapSet
    rw [hany]
    simp only [if_true, List.map_append]
    congr 1
    · calc m.map (fun p => if p.1 == n then (n, h2) else p)
          = m.map id := List.map_congr_left (fun p hp => by simp [hm p hp])
        _ = m := List.map_id m
    · simp
  refine ⟨?defs, ?last, ?count⟩
  case defs =>
    simp [listToolsResponse, registerToolDefinitions, registerToolDefinition]
  case last =>
    rw [hstep1, hstep2]
    unfold mapGet
    rw [List.find?_append, List.find?_eq_none.mpr
      (fun p hp => by simp [hm p hp])]
    simp [List.find?_cons]
  case count =>
    rw [hstep1, hstep2, List.countP_append]
    have : m.countP (fun p => p.1 == n) = 0 := by
      rw [List.countP_eq_zero]
      intro p hp
      simp [hm p hp]
    simp [this, List.countP_cons]

/-- C7 witness: a concrete double registration. -/
theorem C7_witness :
    listToolsResponse (registerToolDefinitions []
        [⟨"tool_x", "first", "s1"⟩, ⟨"tool_x", "second", "s2"⟩])
      = [⟨"tool_x", "first", "s1"⟩, ⟨"tool_x", "second", "s2"⟩]
    ∧ mapGet (mapSet (mapSet ([] : List (String × (CallCtx → ToolResult)))
        "tool_x" (fun _ => errorEnvelope "h1"))
        "tool_x" (fun _ => errorEnvelope "h2")) "tool_x"
      = some (fun _ => errorEnvelope "h2")
    ∧ (mapSet (mapSet ([] : List (String × (CallCtx → ToolResult)))
        "tool_x" (fun _ => errorEnvelope "h1"))
        "tool_x" (fun _ => errorEnvelope "h2")).countP
          (fun p => p.1 == "tool_x") = 1 := by
  have h := C7_asymmetry [] ⟨"tool_x", "first", "s1"⟩
    ⟨"tool_x", "second", "s2"⟩ rfl ([] : List (String × (CallCtx → ToolResult)))
    "tool_x" (fun _ => errorEnvelope "h1") (fun _ => errorEnvelope "h2") rfl
  exact ⟨h.1, h.2.1, h.2.2⟩

/-! ### C6: add/lookup/remove round trip -/

/-- C6 counterexample: the candidate record
`{id:"site-1", name:"B", url:"https://b.test"}` is valid in the claim's
sense — non-empty name and url, and no name or url conflict with the
stored `siteA` — yet after `addSite` succeeds, `getSiteById` with the
returned id returns the **old** record `siteA` (the first match), not
the record `addSite` returned, because the supplied id collides and add
performs no id-uniqueness check. -/
theorem C6_counterexample :
    getSiteByNameV cfgA.sites (JVal.str "B") = none
    ∧ getSiteByUrl cfgA.sites "https://b.test" = none
    ∧ addSite cfgA
        [("id", JVal.str "site-1"), ("name", JVal.str "B"),
         ("url", JVal.str "https://b.test")] "f2" "t1"
      = Except.ok
          ([("id", JVal.str "site-1"), ("name", JVal.str "B"),
            ("url", JVal.str "https://b.test"), ("username", JVal.undef),
            ("applicationPassword", JVal.undef), ("createdAt", JVal.str "t1"),
            ("updatedAt", JVal.str "t1")],
           ⟨[siteA,
             [("id", JVal.str "site-1"), ("name", JVal.str "B"),
              ("url", JVal.str "https://b.test"), ("username", JVal.undef),
              ("applicationPassword", JVal.undef), ("createdAt", JVal.str "t1"),
              ("updatedAt", JVal.str "t1")]], none⟩)
    ∧ getSiteById
        [siteA,
         [("id", JVal.str "site-1"), ("name", JVal.str "B"),
          ("url", JVal.str "https://b.test"), ("username", JVal.undef),
          ("applicationPassword", JVal.undef), ("createdAt", JVal.str "t1"),
          ("updatedAt", JVal.str "t1")]] "site-1" = some siteA
    ∧ siteA ≠
        [("id", JVal.str "site-1"), ("name", JVal.str "B"),
         ("url", JVal.str "https://b.test"), ("username", JVal.undef),
         ("applicationPassword", JVal.undef), ("createdAt", JVal.str "t1"),
         ("updatedAt", JVal.str "t1")] :=
  ⟨rfl, rfl, rfl, rfl, by decide⟩

/-- C6 (amended): for a valid candidate (non-empty name and url, no name
or url conflict) **whose effective id — the supplied one if truthy,
otherwise the fresh uuid — collides with no stored id**, `addSite`
appends exactly the returned record, and `getSiteById`/`getSiteByNameV`/
`getSiteByUrl` with the returned record's id/name/url all return it;
`removeSite` with that id then restores the original site list, and the
id no longer resolves. -/
theorem C6_amended (cfg : SiteConfig) (site : JObj)
    (freshId now n u storedId : String) (idOpt : Option String) (r : JObj)
    (hn : objGet site "name" = some (JVal.str n)) (hne : n ≠ "")
    (hu : objGet site "url" = some (JVal.str u)) (hue : u ≠ "")
    (hid : objGet site "id" = Option.map JVal.str idOpt)
    (hsid : storedId = (match idOpt with
      | some i => if i = "" then freshId else i
      | none => freshId))
    (hr : r = [("id", JVal.str storedId), ("name", JVal.str n),
      ("url", JVal.str u), ("username", vOf (objGet site "username")),
      ("applicationPassword", vOf (objGet site "applicationPassword")),
      ("createdAt", JVal.str now), ("updatedAt", JVal.str now)])
    (hidC : getSiteById cfg.sites storedId = none)
    (hnameC : getSiteByNameV cfg.sites (JVal.str n) = none)
    (hurlC : getSiteByUrl cfg.sites u = none) :
    addSite cfg site freshId now
        = Except.ok (r, ⟨cfg.sites ++ [r], cfg.activeSiteId⟩)
    ∧ objGet r "id" = some (JVal.str storedId)
    ∧ getSiteById (cfg.sites ++ [r]) storedId = some r
    ∧ getSiteByNameV (cfg.sites ++ [r]) (JVal.str n) = some r
    ∧ getSiteByUrl (cfg.sites ++ [r]) u = some r
    ∧ removeSite ⟨cfg.sites ++ [r], cfg.activeSiteId⟩ storedId
        = (true, ⟨cfg.sites, cfg.activeSiteId⟩) := by
  have hpred : (objGet r "id" == some (JVal.str storedId)) = true := by
    simp [hr, objGet_cons]
  refine ⟨?hadd, by simp [hr, objGet_cons], ?hbyid, ?hbyname, ?hbyurl, ?hrem⟩
  case hadd =>
    unfold addSite
    simp only [hn, hu, hid, vOf_some]
    have htn : truthy (JVal.str n) = true := by simp [truthy, hne]
    have htu : truthy (JVal.str u) = true := by simp [truthy, hue]
    simp only [htn, htu, hnameC, hurlC]
    cases idOpt with
    | none =>
      simp [vOf, truthy, hr, hsid]
    | some i =>
      by_cases hi : i = ""
      · simp [vOf, hi, truthy, hr, hsid]
      · have hti : truthy (JVal.str i) = true := by simp [truthy, hi]
        simp [vOf, hti, hr, hsid, hi]
  case hbyid =>
    unfold getSiteById at hidC ⊢
    rw [List.find?_append, hidC]
    simp [List.find?_cons, hpred]
  case hbyname =>
    unfold getSiteByNameV at hnameC ⊢
    rw [List.find?_append, hnameC]
    simp [List.find?_cons, hr, objGet_cons]
  case hbyurl =>
    unfold getSiteByUrl at hurlC ⊢
    rw [List.find?_append, hurlC]
    simp [List.find?_cons, hr, objGet_cons]
  case hrem =>
    unfold removeSite
    have hold : ∀ s ∈ cfg.sites,
        (objGet s "id" == some (JVal.str storedId)) = false := by
      intro s hs
      have := List.find?_eq_none.mp hidC s hs
      simpa using this
    rw [removeFirst_append cfg.sites r _ hold hpred]

/-- C6 witness: adding `{name:"A", url:"https://a.test"}` to the empty
store round-trips through all three lookups and removal. -/
theorem C6_witness :
    addSite cfgEmpty [("name", JVal.str "A"), ("url", JVal.str "https://a.test")]
        "site-9" "t1"
      = Except.ok
          ([("id", JVal.str "site-9"), ("name", JVal.str "A"),
            ("url", JVal.str "https://a.test"), ("username", JVal.undef),
            ("applicationPassword", JVal.undef), ("createdAt", JVal.str "t1"),
            ("updatedAt", JVal.str "t1")],
           ⟨[[("id", JVal.str "site-9"), ("name", JVal.str "A"),
              ("url", JVal.str "https://a.test"), ("username", JVal.undef),
              ("applicationPassword", JVal.undef), ("createdAt", JVal.str "t1"),
              ("updatedAt", JVal.str "t1")]], none⟩)
    ∧ getSiteById
        [[("id", JVal.str "site-9"), ("name", JVal.str "A"),
          ("url", JVal.str "https://a.test"), ("username", JVal.undef),
          ("applicationPassword", JVal.undef), ("createdAt", JVal.str "t1"),
          ("updatedAt", JVal.str "t1")]] "site-9"
      = some [("id", JVal.str "site-9"), ("name", JVal.str "A"),
          ("url", JVal.str "https://a.test"), ("username", JVal.undef),
          ("applicationPassword", JVal.undef), ("createdAt", JVal.str "t1"),
          ("updatedAt", JVal.str "t1")]
    ∧ removeSite
        ⟨[[("id", JVal.str "site-9"), ("name", JVal.str "A"),
           ("url", JVal.str "https://a.test"), ("username", JVal.undef),
           ("applicationPassword", JVal.undef), ("createdAt", JVal.str "t1"),
           ("updatedAt", JVal.str "t1")]], none⟩ "site-9"
      = (true, ⟨[], none⟩) := by
  have h := C6_amended cfgEmpty
    [("name", JVal.str "A"), ("url", JVal.str "https://a.test")]
    "site-9" "t1" "A" "https://a.test" "site-9" none
    [("id", JVal.str "site-9"), ("name", JVal.str "A"),
     ("url", JVal.str "https://a.test"), ("username", JVal.undef),
     ("applicationPassword", JVal.undef), ("createdAt", JVal.str "t1"),
     ("updatedAt", JVal.str "t1")]
    rfl (by decide) rfl (by decide) rfl rfl rfl rfl rfl rfl
  exact ⟨h.1, h.2.2.1, h.2.2.2.2.2⟩

/-! ### C5: update semantics -/

/-- C5 counterexample: patching `siteA` (stored url `https://a.test`)
with url `https://a.test/` — a url that normalizes equal to the record's
**own** url while differing as a string — is rejected as a conflict,
because the uniqueness lookup does not exclude the record being updated.
This refutes the claim that such a patch does not conflict. -/
theorem C5_counterexample :
    updateSite cfgA "site-1" [("url", JVal.str "https://a.test/")] "t2"
      = Except.error
          "[SiteStorage] A site with the URL \"https://a.test/\" already exists" :=
  rfl

/-- C5 (amended): `updateSite` fails with `Site not found` on an unknown
id; the uniqueness re-check is skipped only when the patched name/url is
string-identical to the record's own current value (or absent/falsy), in
which case the patch is spread over the existing record — fields absent
from the patch unchanged, patched fields taking the patch value —
`updatedAt` is stamped, and the updated record is stored and returned;
but a patch url that differs as a string from the record's own url while
matching any stored record up to one trailing slash (including the
record itself) is rejected as a conflict. -/
theorem C5_amended :
    (∀ (cfg : SiteConfig) (id : String) (updates : JObj) (now : String),
      cfg.sites.find? (fun s => objGet s "id" == some (JVal.str id)) = none →
      updateSite cfg id updates now
        = Except.error ("[SiteStorage] Site not found: " ++ id))
    ∧ (∀ (cfg : SiteConfig) (id : String) (updates : JObj) (now : String)
        (cur : JObj),
      cfg.sites.find? (fun s => objGet s "id" == some (JVal.str id)) = some cur →
      ¬ (truthy (vOf (objGet updates "name")) = true
          ∧ vOf (objGet updates "name") ≠ vOf (objGet cur "name")
          ∧ (getSiteByNameV cfg.sites (vOf (objGet updates "name"))).isSome = true) →
      ¬ (truthy (vOf (objGet updates "url")) = true
          ∧ vOf (objGet updates "url") ≠ vOf (objGet cur "url")) →
      updateSite cfg id updates now
          = Except.ok (objSet (objMerge cur updates) "updatedAt" (JVal.str now),
              ⟨replaceFirst cfg.sites
                (fun s => objGet s "id" == some (JVal.str id))
                (objSet (objMerge cur updates) "updatedAt" (JVal.str now)),
               cfg.activeSiteId⟩)
        ∧ objGet (objSet (objMerge cur updates) "updatedAt" (JVal.str now))
            "updatedAt" = some (JVal.str now)
        ∧ (∀ k, k ≠ "updatedAt" → objHas updates k = false →
            objGet (objSet (objMerge cur updates) "updatedAt" (JVal.str now)) k
              = objGet cur k)
        ∧ (∀ k v, k ≠ "updatedAt" → objGet updates k = some v →
            objGet (objSet (objMerge cur updates) "updatedAt" (JVal.str now)) k
              = some v))
    ∧ (∀ (cfg : SiteConfig) (id : String) (updates : JObj) (now : String)
        (cur : JObj) (u : String),
      cfg.sites.find? (fun s => objGet s "id" == some (JVal.str id)) = some cur →
      ¬ (truthy (vOf (objGet updates "name")) = true
          ∧ vOf (objGet updates "name") ≠ vOf (objGet cur "name")
          ∧ (getSiteByNameV cfg.sites (vOf (objGet updates "name"))).isSome = true) →
      objGet updates "url" = some (JVal.str u) →
      u ≠ "" →
      JVal.str u ≠ vOf (objGet cur "url") →
      (getSiteByUrl cfg.sites u).isSome = true →
      updateSite cfg id updates now
        = Except.error ("[SiteStorage] A site with the URL \"" ++ u
            ++ "\" already exists")) := by
  refine ⟨?notFound, ?merge, ?selfConflict⟩
  case notFound =>
    intro cfg id updates now h
    unfold updateSite
    simp [h]
  case merge =>
    intro cfg id updates now cur hfind hn hu
    refine ⟨?eq, objGet_objSet_self _ _ _, ?frame, ?patched⟩
    case eq =>
      unfold updateSite
      simp only [hfind]
      rw [if_neg hn, if_neg hu]
    case frame =>
      intro k hk hhas
      rw [objGet_objSet_ne _ _ _ _ hk, objGet_objMerge,
        (objHas_eq_false_iff updates k).mp hhas]
      rfl
    case patched =>
      intro k v hk hv
      rw [objGet_objSet_ne _ _ _ _ hk, objGet_objMerge, hv]
      rfl
  case selfConflict =>
    intro cfg id updates now cur u hfind hn hurl hu hne hconf
    have htr : truthy (vOf (objGet updates "url")) = true := by
      simp [hurl, vOf_some, truthy, hu]
    unfold updateSite
    simp only [hfind]
    rw [if_neg hn]
    rw [if_pos ⟨htr, by rw [hurl, vOf_some]; exact hne⟩]
    simp only [hurl, vOf_some]
    rw [if_pos hconf]

/-- C5 witness: an unknown id reports not-found; a patch that keeps the
record's own exact name merges cleanly, stamps `updatedAt`, and leaves
the unpatched url unchanged; the trailing-slash self-patch of the
counterexample conflicts. -/
theorem C5_witness :
    updateSite cfgA "zz" [] "t2"
        = Except.error "[SiteStorage] Site not found: zz"
    ∧ objGet (objSet (objMerge siteA [("name", JVal.str "A")]) "updatedAt"
        (JVal.str "t2")) "updatedAt" = some (JVal.str "t2")
    ∧ objGet (objSet (objMerge siteA [("name", JVal.str "A")]) "updatedAt"
        (JVal.str "t2")) "url" = objGet siteA "url"
    ∧ updateSite cfgA "site-1" [("name", JVal.str "A")] "t2"
        = Except.ok (objSet (objMerge siteA [("name", JVal.str "A")]) "updatedAt"
            (JVal.str "t2"),
            ⟨replaceFirst cfgA.sites
              (fun s => objGet s "id" == some (JVal.str "site-1"))
              (objSet (objMerge siteA [("name", JVal.str "A")]) "updatedAt"
                (JVal.str "t2")),
             cfgA.activeSiteId⟩) := by
  have hmerge := C5_amended.2.1 cfgA "site-1" [("name", JVal.str "A")] "t2"
    siteA rfl (by decide) (by decide)
  exact ⟨C5_amended.1 cfgA "zz" [] "t2" rfl, hmerge.2.1,
    hmerge.2.2.1 "url" (by decide) (by decide), hmerge.1⟩

/-- C4 witness: adding the stored url plus a trailing slash under a fresh
name conflicts with an "already exists" error. -/
theorem C4_witness :
    addSite cfgA
        [("name", JVal.str "B"), ("url", JVal.str "https://a.test/")]
        "site-2" "t1"
      = Except.error "[SiteStorage] A site with the name \"B\" already exists"
    ∨ addSite cfgA
        [("name", JVal.str "B"), ("url", JVal.str "https://a.test/")]
        "site-2" "t1"
      = Except.error
          "[SiteStorage] A site with the URL \"https://a.test/\" already exists" :=
  (C4_amended cfgA
    [("name", JVal.str "B"), ("url", JVal.str "https://a.test/")]
    "https://a.test/" "site-2" "t1" rfl (by decide) (by decide)).1
    (Or.inr (by decide))

end WpMcp
